import Mathlib

/-!
Verification development for the Crypto-llm trading system.

Shallow embedding of the repository's core modules:
  modules/market_classifier.py   (MarketClassifier)
  modules/prompt_manager.py      (PromptManager.prepare_market_context)
  modules/trade_history.py       (TradeHistory.calculate_performance_metrics)
  modules/position_manager.py    (PositionManager.get_position_risk)
  modules/emergency_manager.py   (EmergencyManager.check_emergency)
  modules/llm_agent_manager.py   (LLMAgentManager pipeline stages)
  main.py                        (LLMTrader.strategy_update_job)

Conventions used throughout:
  - Prices, volumes and P&L values are modelled as rationals.  The source
    works with numpy/pandas float64 values; all concrete inputs used in the
    theorems below are small exact decimals on which float and rational
    arithmetic agree.
  - Rational division is total with x / 0 = 0.  Where the source could
    divide by zero (numpy yields inf/nan rather than raising), the spot is
    guarded the same way the source guards it, or noted in a comment.
  - Statistics that the source reports through a square root (standard
    deviations) are represented by their squares, compared against squared
    thresholds; squaring is strictly monotone on nonnegative values, so
    every branch decision is preserved exactly.
  - Fallible operations (out-of-range pandas .iloc access, the unbound-name
    error in the classifier, reasoning-service calls) return Option/Except.
-/

set_option linter.unusedVariables false

/-! ## Generic helpers: Python/pandas primitives over rational lists -/

/-- Python-style indexing, total version: xs.iloc[i] with negative indices
counted from the end.  Out-of-range access returns 0; it is only used where
the source guarantees the index is in range. -/
def piloc (xs : List ℚ) (i : Int) : ℚ :=
  if i < 0 then xs.getD ((xs.length : Int) + i).toNat 0 else xs.getD i.toNat 0

/-- Python-style indexing, fallible version: pandas .iloc[i] raises
IndexError when out of range, modelled as none. -/
def pilocOpt (xs : List ℚ) (i : Int) : Option ℚ :=
  let j : Int := if i < 0 then (xs.length : Int) + i else i
  if 0 ≤ j then xs.get? j.toNat else none

/-- pandas Series.tail(n): silently returns the whole series when it is
shorter than n. -/
def pyTail (n : Nat) (xs : List ℚ) : List ℚ :=
  xs.drop (xs.length - n)

/-- Python slice xs[-a:-b] for constants 0 < b < a (used as df.iloc[-20:-5]):
clamped, never raising. -/
def pySliceNeg (xs : List ℚ) (a b : Nat) : List ℚ :=
  (xs.drop (xs.length - a)).take ((xs.length - b) - (xs.length - a))

/-- pandas Series.mean().  The empty case is 0 here (0/0) where pandas
yields NaN; at every use site the source compares the result in a way that
treats NaN and 0 identically (comparisons with NaN are false). -/
def listMean (xs : List ℚ) : ℚ := xs.sum / (xs.length : ℚ)

/-- pandas Series.max() with 0 for the empty series (source guards emptiness
at each use site). -/
def listMax : List ℚ → ℚ
  | [] => 0
  | x :: xs => xs.foldl max x

/-- pandas Series.min() with 0 for the empty series. -/
def listMin : List ℚ → ℚ
  | [] => 0
  | x :: xs => xs.foldl min x

/-- pandas Series.pct_change().dropna(): consecutive relative changes. -/
def pctChange (xs : List ℚ) : List ℚ :=
  List.zipWith (fun prev cur => cur / prev - 1) xs xs.tail

/-- pandas Series.diff().dropna(): consecutive differences. -/
def diffList (xs : List ℚ) : List ℚ :=
  List.zipWith (fun prev cur => cur - prev) xs xs.tail

/-- Sample variance, the square of pandas Series.std() (ddof = 1).  For
fewer than two observations pandas yields NaN; that case returns 0 here and
is unreachable from the guarded callers (noted there). -/
def sampleVar (xs : List ℚ) : ℚ :=
  if xs.length ≤ 1 then 0
  else
    let m := listMean xs
    (xs.map (fun x => (x - m) ^ 2)).sum / ((xs.length : ℚ) - 1)

/-- Whether the character list needle occurs as a prefix of hay. -/
def listStarts : List Char → List Char → Bool
  | _, [] => true
  | [], _ :: _ => false
  | a :: as, b :: bs => a == b && listStarts as bs

/-- Whether the character list needle occurs contiguously inside hay. -/
def listHas : List Char → List Char → Bool
  | [], needle => needle.isEmpty
  | hay@(_ :: rest), needle => listStarts hay needle || listHas rest needle

/-- Python's substring containment test: needle in hay. -/
def strHas (hay needle : String) : Bool :=
  listHas hay.toList needle.toList

/-- Number of decimal digits of a natural number, len(str(n)). -/
def digitsLen (n : Nat) : Nat :=
  if h : n < 10 then 1 else 1 + digitsLen (n / 10)
decreasing_by exact Nat.div_lt_self (by omega) (by omega)

/-- Python int(x): truncation toward zero. -/
def pyTrunc (x : ℚ) : Int := x.num / (x.den : Int)

/-- Python round(x): round half to even. -/
def pyRound (x : ℚ) : Int :=
  let f := ⌊x⌋
  let frac := x - (f : ℚ)
  if frac < 1/2 then f
  else if frac > 1/2 then f + 1
  else if f % 2 = 0 then f else f + 1

/-- Ascending insertion into a sorted rational list. -/
def insertSorted (x : ℚ) : List ℚ → List ℚ
  | [] => [x]
  | y :: ys => if x ≤ y then x :: y :: ys else y :: insertSorted x ys

/-- Python sorted() on rationals. -/
def sortQ (xs : List ℚ) : List ℚ := xs.foldr insertSorted []

/-- Lexicographic insertion for pairs, matching Python tuple ordering. -/
def insertPair (x : ℚ × ℚ) : List (ℚ × ℚ) → List (ℚ × ℚ)
  | [] => [x]
  | y :: ys =>
    if x.1 < y.1 ∨ (x.1 = y.1 ∧ x.2 ≤ y.2) then x :: y :: ys
    else y :: insertPair x ys

/-- Python sorted() on pairs of rationals (lexicographic). -/
def sortPairs (xs : List (ℚ × ℚ)) : List (ℚ × ℚ) := xs.foldr insertPair []

/-! ## Market data (the kline DataFrame) -/

/-- One OHLCV frame: the columns of the kline DataFrame as parallel lists,
one entry per bar.  The row count len(market_data) is the length of the
close column. -/
structure MarketData where
  highs : List ℚ
  lows : List ℚ
  closes : List ℚ
  volumes : List ℚ
deriving DecidableEq

/-! ## modules/market_classifier.py -/

/-- Python exception kinds raised by the embedded code. -/
inductive PyErr
  | nameError
  | indexError
deriving DecidableEq

/-- support/resistance dict returned by MarketClassifier._identify_support_resistance. -/
structure SupportResistance where
  support : List ℚ
  resistance : List ℚ
deriving DecidableEq

/-- The classification dict returned by MarketClassifier.classify_market.
In the unknown branch the source puts an empty list where the normal branch
puts the two-field support/resistance dict; the empty list is represented
here as the empty pair of lists. -/
structure Classification where
  trend : String
  volatility : String
  momentum : String
  support_resistance : SupportResistance
  critical_levels : List (String × ℚ)
deriving DecidableEq

/-- The explicit unknown classification (classify_market lines 27-33). -/
def unknownClassification : Classification :=
  ⟨"unknown", "unknown", "unknown", ⟨[], []⟩, []⟩

def trend_threshold : ℚ := 3 / 100
def high_volatility_threshold : ℚ := 4 / 100
def low_volatility_threshold : ℚ := 15 / 1000

/-- MarketClassifier._identify_trend (lines 67-90).  Callers guarantee at
least 50 bars, so every index is in range. -/
def identify_trend (prices : List ℚ) : String :=
  let short_change := piloc prices (-1) / piloc prices (-5) - 1
  let medium_change := piloc prices (-1) / piloc prices (-20) - 1
  let long_change := piloc prices (-1) / piloc prices (-50) - 1
  if short_change > trend_threshold ∧ medium_change > 0 then "uptrend"
  else if short_change < -trend_threshold ∧ medium_change < 0 then "downtrend"
  else if |medium_change| < trend_threshold / 2 then "sideways"
  else if short_change > 0 ∧ medium_change > 0 ∧ long_change > 0 then "strong_uptrend"
  else if short_change < 0 ∧ medium_change < 0 ∧ long_change < 0 then "strong_downtrend"
  else if short_change > 0 ∧ medium_change < 0 then "pullback"
  else if short_change < 0 ∧ medium_change > 0 then "correction"
  else "mixed"

/-- MarketClassifier._identify_volatility (lines 92-102).  The source
compares std(returns.tail 20) * sqrt 365 against the two thresholds; both
sides are nonnegative, so the comparisons are equivalent to comparing the
squares, which keeps the computation in the rationals. -/
def identify_volatility (prices : List ℚ) : String :=
  let returns := pctChange prices
  let v := sampleVar (pyTail 20 returns)
  if v * 365 > high_volatility_threshold ^ 2 then "high"
  else if v * 365 < low_volatility_threshold ^ 2 then "low"
  else "medium"

/-- MarketClassifier._identify_momentum (lines 104-129).  rolling(14).mean()
of the last position is the mean of the last 14 entries; with fewer than 14
price differences it is NaN in the source, every band comparison is then
false and the result falls through to "neutral" (that case is unreachable
from classify_market, which guarantees 50 bars). -/
def identify_momentum (prices : List ℚ) : String :=
  let delta := diffList prices
  let gain := delta.map (fun d => max d 0)
  let loss := delta.map (fun d => max (-d) 0)
  if delta.length < 14 then "neutral"
  else
    let avg_gain := listMean (pyTail 14 gain)
    let avg_loss := listMean (pyTail 14 loss)
    let rsi : ℚ := if avg_loss = 0 then 100 else 100 - 100 / (1 + avg_gain / avg_loss)
    if rsi > 70 then "overbought"
    else if rsi < 30 then "oversold"
    else if rsi > 60 then "strong"
    else if rsi < 40 then "weak"
    else "neutral"

/-- Inner loop of MarketClassifier._merge_close_levels (lines 176-190):
walk the sorted levels, growing the current group while the next level is
within 0.5% of the group average.  With a zero group average the source's
float division yields inf/nan and the comparison is false; price levels are
positive in every use, so the case is unreachable there. -/
def mergeLoop : List ℚ → List ℚ → List ℚ
  | [], grp => [listMean grp]
  | l :: rest, grp =>
    let group_avg := listMean grp
    if |l - group_avg| / group_avg < 5 / 1000 then mergeLoop rest (grp ++ [l])
    else group_avg :: mergeLoop rest [l]

/-- MarketClassifier._merge_close_levels (lines 169-192). -/
def merge_close_levels (levels : List ℚ) : List ℚ :=
  match sortQ levels with
  | [] => []
  | x :: rest => mergeLoop rest [x]

/-- MarketClassifier._identify_support_resistance (lines 131-167).
range(2, lookback-2) scans offsets i from the end; note that for i = 2 the
source compares against iloc[-i+2] = iloc[0], the first bar — translated
verbatim. -/
def identify_support_resistance (highs lows closes : List ℚ) : SupportResistance :=
  let lookback := min 100 closes.length
  let idxs := (List.range (lookback - 2)).drop 2
  let support_raw := idxs.filterMap (fun i =>
    let c := piloc lows (-(i : Int))
    if c < piloc lows (-(i : Int) - 1) ∧ c < piloc lows (-(i : Int) - 2) ∧
       c < piloc lows (-(i : Int) + 1) ∧ c < piloc lows (-(i : Int) + 2)
    then some c else none)
  let resistance_raw := idxs.filterMap (fun i =>
    let c := piloc highs (-(i : Int))
    if c > piloc highs (-(i : Int) - 1) ∧ c > piloc highs (-(i : Int) - 2) ∧
       c > piloc highs (-(i : Int) + 1) ∧ c > piloc highs (-(i : Int) + 2)
    then some c else none)
  let support_m := merge_close_levels support_raw
  let resistance_m := merge_close_levels resistance_raw
  let current_price := piloc closes (-1)
  let sup_sorted := sortPairs ((support_m.filter (fun l => decide (l < current_price))).map
    (fun l => (|l - current_price|, l)))
  let res_sorted := sortPairs ((resistance_m.filter (fun l => decide (l > current_price))).map
    (fun l => (|l - current_price|, l)))
  ⟨(sup_sorted.take 3).map (·.2), (res_sorted.take 3).map (·.2)⟩

/-- MarketClassifier._identify_critical_levels (lines 194-228).  Lines
197-205 compute the values bound below; line 208 then reads the name
market_data, which is not bound anywhere in the method's scope (it is only
a parameter of classify_market), so Python raises NameError unconditionally
before any further line runs.  The iloc[-1] read of line 197 would raise
IndexError first on an empty frame (unreachable from classify_market, which
guarantees 50 bars). -/
def identify_critical_levels (closes highs lows : List ℚ) :
    Except PyErr (List (String × ℚ)) :=
  if closes.isEmpty then .error .indexError
  else
    let current_price := piloc closes (-1)
    let _all_time_high := listMax highs
    let _all_time_low := listMin lows
    let price_magnitude : ℚ := (10 : ℚ) ^ (digitsLen (pyTrunc current_price).natAbs - 1)
    let _nearest_round_number : ℚ := (pyRound (current_price / price_magnitude) : ℚ) * price_magnitude
    .error .nameError

/-- MarketClassifier.classify_market (lines 24-65), together with the
last_classification cache (the timestamp stored with it is abstracted).
Short or missing data returns the unknown classification without touching
the cache; otherwise the helpers run and the critical-levels step raises,
so the cache update of lines 56-63 is never reached. -/
def classify_market (md : Option MarketData) (cache : Option Classification) :
    Except PyErr Classification × Option Classification :=
  match md with
  | none => (.ok unknownClassification, cache)
  | some d =>
    if d.closes.length < 50 then (.ok unknownClassification, cache)
    else
      let trend := identify_trend d.closes
      let volatility := identify_volatility d.closes
      let momentum := identify_momentum d.closes
      let sr := identify_support_resistance d.highs d.lows d.closes
      match identify_critical_levels d.closes d.highs d.lows with
      | .error e => (.error e, cache)
      | .ok cl =>
        let c : Classification := ⟨trend, volatility, momentum, sr, cl⟩
        (.ok c, some c)

/-! ## modules/prompt_manager.py : prepare_market_context -/

/-- MarketContext (prepare_market_context's dict).  The two volatility
figures are stored squared (times 100^2) to stay rational; definedness,
which is what the claims inspect, is unaffected. -/
structure MarketContext where
  current_price : ℚ
  price_change_1h : ℚ
  price_change_24h : ℚ
  volume_change : ℚ
  volatility_1h_sq : ℚ
  volatility_24h_sq : ℚ
deriving DecidableEq

/-- The 1h price-change figure (line 145): iloc[-60] raises IndexError on a
series shorter than 60 bars. -/
def price_change_1h (closes : List ℚ) : Option ℚ := do
  let last ← pilocOpt closes (-1)
  let prev ← pilocOpt closes (-60)
  pure ((last / prev - 1) * 100)

/-- The 24h price-change figure (line 146): iloc[-1440] raises IndexError on
a series shorter than 1440 bars. -/
def price_change_24h (closes : List ℚ) : Option ℚ := do
  let last ← pilocOpt closes (-1)
  let prev ← pilocOpt closes (-1440)
  pure ((last / prev - 1) * 100)

/-- The volume-change figure (line 147): tail() truncates silently, so this
never fails on a short series. -/
def volume_change (volumes : List ℚ) : ℚ :=
  (listMean (pyTail 60 volumes) / listMean (pyTail 1440 volumes) - 1) * 100

/-- Squared 1h volatility figure (line 148): tail() truncates silently. -/
def volatility_1h_sq (closes : List ℚ) : ℚ :=
  sampleVar (pctChange (pyTail 60 closes)) * 100 ^ 2

/-- Squared 24h volatility figure (line 149). -/
def volatility_24h_sq (closes : List ℚ) : ℚ :=
  sampleVar (pctChange (pyTail 1440 closes)) * 100 ^ 2

/-- PromptManager.prepare_market_context (lines 140-150).  The dict values
are evaluated top to bottom; the first IndexError aborts the whole
construction. -/
def prepare_market_context (md : MarketData) : Option MarketContext := do
  let current ← pilocOpt md.closes (-1)
  let pc1 ← price_change_1h md.closes
  let pc24 ← price_change_24h md.closes
  pure ⟨current, pc1, pc24, volume_change md.volumes,
        volatility_1h_sq md.closes, volatility_24h_sq md.closes⟩

/-! ## modules/trade_history.py : calculate_performance_metrics -/

/-- One entry of the trade ledger as consumed by the metrics computation:
the record timestamp, data.action, and the attached outcome's profit when a
result has been attached (result.get("profit", 0) is the profit itself). -/
structure TradeRec where
  timestamp : Int
  action : String
  result : Option ℚ
deriving DecidableEq

/-- TradeHistory.get_recent_trades (lines 53-66): keep records whose
timestamp is at or after the cutoff (timestamps modelled as integers; the
source's unparsable-timestamp skip is not represented because every record
the system writes has a well-formed timestamp). -/
def get_recent_trades (trades : List TradeRec) (cutoff : Int) : List TradeRec :=
  trades.filter (fun t => decide (cutoff ≤ t.timestamp))

/-- The metrics dict of TradeHistory.calculate_performance_metrics. -/
structure PerfMetrics where
  total_trades : Nat
  win_rate : ℚ
  avg_profit : ℚ
  max_profit : ℚ
  max_loss : ℚ
  profit_factor : ℚ
  long_win_rate : ℚ
  short_win_rate : ℚ
deriving DecidableEq

/-- "多" in direction or direction == "开多" (line 110). -/
def isLongDir (a : String) : Bool := strHas a "多" || a == "开多"

/-- "空" in direction or direction == "开空" (line 114); the source's elif
makes this reachable only when the long test failed. -/
def isShortDir (a : String) : Bool := strHas a "空" || a == "开空"

/-- Profits of the records that carry an attached outcome, in ledger order
(the loop of lines 94-117 skips records without "result"). -/
def outcomeProfits (ts : List TradeRec) : List ℚ :=
  ts.filterMap (fun t => t.result)

/-- TradeHistory.calculate_performance_metrics (lines 68-140), with the
window given by an explicit cutoff.  total_trades counts every record in
the window, with or without an outcome (line 83); the win-rate denominator
is that same count (line 120). -/
def calculate_performance_metrics (trades : List TradeRec) (cutoff : Int) : PerfMetrics :=
  let recent := get_recent_trades trades cutoff
  if recent.isEmpty then ⟨0, 0, 0, 0, 0, 0, 0, 0⟩
  else
    let total_trades := recent.length
    let profits := outcomeProfits recent
    let winning_trades := (profits.filter (fun pf => decide (0 < pf))).length
    let total_profit := (profits.filter (fun pf => decide (0 < pf))).sum
    let total_loss := ((profits.filter (fun pf => !decide (0 < pf))).map (fun pf => |pf|)).sum
    let resulted := recent.filter (fun t => t.result.isSome)
    let longs := resulted.filter (fun t => isLongDir t.action)
    let shorts := resulted.filter (fun t => !isLongDir t.action && isShortDir t.action)
    let long_wins := (longs.filter (fun t => decide (0 < t.result.getD 0))).length
    let short_wins := (shorts.filter (fun t => decide (0 < t.result.getD 0))).length
    let win_rate : ℚ := if 0 < total_trades then (winning_trades : ℚ) / (total_trades : ℚ) else 0
    let avg_profit : ℚ := if profits.isEmpty then 0 else profits.sum / (profits.length : ℚ)
    let max_profit : ℚ := if profits.isEmpty then 0 else listMax profits
    let max_loss : ℚ := if profits.isEmpty then 0 else listMin profits
    let profit_factor : ℚ := if 0 < total_loss then total_profit / total_loss else 0
    let long_win_rate : ℚ := if longs.isEmpty then 0 else (long_wins : ℚ) / (longs.length : ℚ)
    let short_win_rate : ℚ := if shorts.isEmpty then 0 else (short_wins : ℚ) / (shorts.length : ℚ)
    ⟨total_trades, win_rate, avg_profit, max_profit, max_loss, profit_factor,
      long_win_rate, short_win_rate⟩

/-! ## modules/position_manager.py : position risk -/

/-- The position dict (futures_position_information), numeric fields only;
symbol and margin type play no role in the embedded logic. -/
structure PositionInfo where
  size : ℚ
  entry_price : ℚ
  mark_price : ℚ
  unrealized_pnl : ℚ
  leverage : ℚ
  liquidation_price : ℚ
deriving DecidableEq

/-- PositionManager._calculate_risk_level (lines 99-110): first match wins. -/
def calculate_risk_level (pnl_percentage liquidation_distance : ℚ) : String :=
  if liquidation_distance ≤ 5 then "extreme"
  else if liquidation_distance ≤ 10 then "high"
  else if pnl_percentage < -10 then "medium"
  else if pnl_percentage < -5 then "low"
  else "safe"

/-- The risk dict returned by PositionManager.get_position_risk. -/
structure RiskReport where
  risk_level : String
  pnl_percentage : ℚ
  liquidation_distance : ℚ
deriving DecidableEq

/-- PositionManager.get_position_risk (lines 63-97).  A missing position or
a flat one short-circuits to the literal 'none' report without reaching the
threshold rules. -/
def get_position_risk (pos : Option PositionInfo) : RiskReport :=
  match pos with
  | none => ⟨"none", 0, 0⟩
  | some p =>
    if p.size = 0 then ⟨"none", 0, 0⟩
    else
      let entry_value := |p.size * p.entry_price|
      let pnl_percentage := if entry_value > 0 then p.unrealized_pnl / entry_value * 100 else 0
      let liquidation_distance :=
        if p.liquidation_price > 0 then
          |(p.mark_price - p.liquidation_price) / p.mark_price * 100|
        else 100
      ⟨calculate_risk_level pnl_percentage liquidation_distance,
        pnl_percentage, liquidation_distance⟩

/-! ## modules/emergency_manager.py : check_emergency -/

/-- EmergencyManager._check_position_risk (lines 193-211). -/
def check_position_risk (pos : Option PositionInfo) : Bool :=
  match pos with
  | none => false
  | some p =>
    if p.size = 0 then false
    else
      let entry_value := |p.size * p.entry_price|
      if entry_value = 0 then false
      else decide (p.unrealized_pnl / entry_value * 100 < -15)

/-- EmergencyManager._check_volume_surge (lines 161-176). -/
def check_volume_surge (volumes : List ℚ) : Bool :=
  let recent_volume := listMean (pyTail 5 volumes)
  let previous_volume := listMean (pySliceNeg volumes 20 5)
  let volume_multiplier := if previous_volume > 0 then recent_volume / previous_volume else 0
  decide (volume_multiplier > 3)

/-- EmergencyManager._check_price_change (lines 178-191): iloc[-5] raises
IndexError on fewer than 5 bars, the surrounding except returns False. -/
def check_price_change (closes : List ℚ) : Bool :=
  if closes.length < 5 then false
  else decide (|(piloc closes (-1) - piloc closes (-5)) / piloc closes (-5) * 100| > 3)

/-- EmergencyManager.check_emergency (lines 26-71).  Missing market data
returns False (lines 30-32).  Line 35 then builds the market context via
prepare_market_context inside the outer try: its iloc[-60]/iloc[-1440]
IndexError on a frame shorter than those lookbacks is caught by the except
of lines 69-71, which returns False before any trigger or the risk score
is evaluated — and _get_market_data (lines 73-99) fetches only 100 bars.
Only when the context succeeds are the four triggers OR'd with the
reasoning-service risk score (line 50-56).  The volatility trigger
(_check_volatility, lines 147-159) compares an annualized std of log
returns — a real-valued quantity with no rational form — so it enters as
its boolean outcome; the risk score (_assess_risk) enters as its returned
value (0 on any failure, per lines 120-121 and 143-145). -/
def check_emergency (volatility_emergency : Bool) (md : Option MarketData)
    (pos : Option PositionInfo) (risk_score : ℚ) : Bool :=
  match md with
  | none => false
  | some d =>
    match prepare_market_context d with
    | none => false
    | some _market_context =>
      volatility_emergency || check_volume_surge d.volumes || check_price_change d.closes ||
        check_position_risk pos || decide (risk_score > 4/5)

/-! ## modules/llm_agent_manager.py and main.py : the deliberation pipeline

The reasoning-service calls are modelled by their outcomes: each stage's
call either returns a text or raises.  Prompt construction is pure string
formatting and does not influence control flow, so it is not reproduced;
what is reproduced is which calls happen, in which order, and how their
failures propagate through LLMTrader.strategy_update_job's try/except. -/

/-- Outcome of one openai.chat.completions.create call. -/
inductive CallResult
  | ok (text : String)
  | failed
deriving DecidableEq

/-- A raising call propagates as an exception, modelled as Except. -/
def callLLM : CallResult → Except Unit String
  | .ok t => .ok t
  | .failed => .error ()

/-- The final structured decision, the JSON object of make_final_decision
(exact keys action, price, quantity, stop_loss, take_profit, confidence,
reason). -/
structure Decision where
  action : String
  price : String
  quantity : String
  stop_loss : String
  take_profit : String
  confidence : String
  reason : String
deriving DecidableEq

/-- The safe default of make_final_decision lines 558-571: hold (观望),
quantity "0", confidence "0". -/
def safe_default_decision : Decision :=
  ⟨"观望", "market", "0", "0", "0", "0", "解析决策时出错"⟩

/-- The per-cycle reasoning-service call outcomes, one per stage role. -/
structure CycleCalls where
  analysisCall : CallResult
  traderCall : CallResult
  validatorCall : CallResult
  riskCall : CallResult
  debateCall : CallResult
  finalCall : CallResult
deriving DecidableEq

/-- LLMAgentManager.analyze_market (lines 86-160): one analyst call whose
text is the analysis. -/
def analyze_market (c : CallResult) : Except Unit String := callLLM c

/-- LLMAgentManager.suggest_strategy (lines 193-266): the trader call
followed by _validate_strategy's validator call; the returned strategy is
the validator's text (line 259: validated_strategy supersedes). -/
def suggest_strategy (traderC validatorC : CallResult) : Except Unit String :=
  match callLLM traderC with
  | .error e => .error e
  | .ok _strategy =>
    match callLLM validatorC with
    | .error e => .error e
    | .ok validated => .ok validated

/-- LLMAgentManager.evaluate_risk (lines 336-398): one risk call. -/
def evaluate_risk (riskC : CallResult) : Except Unit String := callLLM riskC

/-- Line 406: debate is needed exactly when the risk text recommends
against execution (不建议执行) or execution after adjustment (调整后执行). -/
def needsDebate (risk : String) : Bool :=
  strHas risk "不建议执行" || strHas risk "调整后执行"

/-- The dict returned by LLMAgentManager.debate_strategy. -/
structure DebateResult where
  debated_strategy : String
  original_strategy : String
  risk_assessment : String
  was_debated : Bool
deriving DecidableEq

/-- LLMAgentManager.debate_strategy (lines 400-446): with no debate needed,
a pure pass-through of the validated strategy with was_debated = False;
otherwise one debate call whose text becomes the debated strategy. -/
def debate_strategy (strategy risk : String) (debateC : CallResult) :
    Except Unit DebateResult :=
  if needsDebate risk then
    match callLLM debateC with
    | .error e => .error e
    | .ok t => .ok ⟨t, strategy, risk, true⟩
  else .ok ⟨strategy, strategy, risk, false⟩

/-- LLMAgentManager.make_final_decision (lines 448-571) on the
strategy_update_job path (no debated_strategy key in the input, so
debate_strategy runs first).  The final openai call (line 517) sits outside
the try block: its exception propagates.  The fence extraction plus
json.loads of lines 525-534 is the parse parameter; a parse failure is
caught and returns the safe default. -/
def make_final_decision (strategy risk : String) (debateC finalC : CallResult)
    (parse : String → Option Decision) : Except Unit Decision :=
  match debate_strategy strategy risk debateC with
  | .error e => .error e
  | .ok _debate =>
    match callLLM finalC with
    | .error e => .error e
    | .ok txt =>
      match parse txt with
      | some d => .ok d
      | none => .ok safe_default_decision

/-- Orders the trader can send to the exchange collaborator. -/
inductive Order
  | openLong (price quantity stop_loss take_profit : String)
  | openShort (price quantity stop_loss take_profit : String)
  | closeAll
deriving DecidableEq

/-- LLMTrader.execute_decision (main.py lines 187-241): hold (观望) sends
nothing; the three active actions translate to exchange calls; an
unrecognized action also sends nothing. -/
def execute_decision (d : Decision) : Option Order :=
  if d.action == "观望" then none
  else if d.action == "开多" then some (.openLong d.price d.quantity d.stop_loss d.take_profit)
  else if d.action == "开空" then some (.openShort d.price d.quantity d.stop_loss d.take_profit)
  else if d.action == "平仓" then some .closeAll
  else none

/-- How one strategy_update_job cycle ends. -/
inductive CycleOutcome
  | skipped
  | errorLogged
  | executed (d : Decision)
deriving DecidableEq

/-- LLMTrader.strategy_update_job (main.py lines 97-147).  Missing market
data skips the cycle; any exception from a stage is caught by the outer
try/except, which logs and returns without producing a decision; otherwise
the final decision is handed to execute_decision.  (classify_market's own
failure, proved separately, lands in the same catch-all.) -/
def strategy_update_job (marketDataOk : Bool) (c : CycleCalls)
    (parse : String → Option Decision) : CycleOutcome :=
  if !marketDataOk then .skipped
  else
    match analyze_market c.analysisCall with
    | .error _ => .errorLogged
    | .ok _analysis =>
      match suggest_strategy c.traderCall c.validatorCall with
      | .error _ => .errorLogged
      | .ok strategy =>
        match evaluate_risk c.riskCall with
        | .error _ => .errorLogged
        | .ok risk =>
          match make_final_decision strategy risk c.debateCall c.finalCall parse with
          | .error _ => .errorLogged
          | .ok d => .executed d

/-- What a cycle outcome sends to the exchange execution collaborator. -/
def cycle_order (o : CycleOutcome) : Option Order :=
  match o with
  | .executed d => execute_decision d
  | _ => none

/-- Whether a final-stage failure occurs: the final call raises, or its
text fails to parse. -/
def final_fails (fc : CallResult) (parse : String → Option Decision) : Bool :=
  match fc with
  | .failed => true
  | .ok t => (parse t).isNone

/-- Whether the cycle encounters a stage failure: some reasoning call that
the control flow actually reaches raises, or the final decision text fails
to parse (the debate call only happens when the risk text triggers it). -/
def stage_failure_occurs (c : CycleCalls) (parse : String → Option Decision) : Bool :=
  match c.analysisCall with
  | .failed => true
  | .ok _ =>
    match c.traderCall with
    | .failed => true
    | .ok _ =>
      match c.validatorCall with
      | .failed => true
      | .ok _ =>
        match c.riskCall with
        | .failed => true
        | .ok risk =>
          if needsDebate risk then
            match c.debateCall with
            | .failed => true
            | .ok _ => final_fails c.finalCall parse
          else final_fails c.finalCall parse

/-! ## Concrete inputs used by the theorems -/

/-- A 50-bar series of flat prices: long enough for the full classifier. -/
def md50 : MarketData :=
  ⟨List.replicate 50 101, List.replicate 50 99, List.replicate 50 100, List.replicate 50 1⟩

/-- A 3-bar series: shorter than the 50-bar long-trend lookback. -/
def mdShort : MarketData :=
  ⟨List.replicate 3 101, List.replicate 3 99, List.replicate 3 100, List.replicate 3 1⟩

/-- A 10-bar series: shorter than the 60-bar market-context lookback. -/
def md10 : MarketData :=
  ⟨List.replicate 10 101, List.replicate 10 99, List.replicate 10 100, List.replicate 10 1⟩

/-- A 100-bar flat series: the frame shape _get_market_data actually
fetches (klines with limit=100). -/
def md100 : MarketData :=
  ⟨List.replicate 100 101, List.replicate 100 99,
   List.replicate 100 100, List.replicate 100 1⟩

/-- A position carrying a 20% unrealized loss (entry notional 100). -/
def posLoss20 : PositionInfo := ⟨1, 100, 80, -20, 5, 50⟩

/-- The position of the spec's positive example: long 1 @ 100, mark 90,
liquidation 85. -/
def posExample : PositionInfo := ⟨1, 100, 90, -10, 5, 85⟩

/-- A flat position. -/
def posFlat : PositionInfo := ⟨0, 0, 0, 0, 5, 0⟩

/-- Four hold records without outcomes, all inside the window. -/
def fourHolds : List TradeRec := List.replicate 4 ⟨100, "观望", none⟩

/-- One winning long trade with an attached outcome. -/
def oneWin : List TradeRec := [⟨100, "开多", some 5⟩]

/-- The same ledger after appending one outcome-less hold record. -/
def oneWinPlusHold : List TradeRec := [⟨100, "开多", some 5⟩, ⟨100, "观望", none⟩]

/-- A ledger with one winner and one loser. -/
def mixedTrades : List TradeRec := [⟨100, "开多", some 5⟩, ⟨100, "开空", some (-2)⟩]

/-- A cycle environment whose analysis-stage call raises. -/
def cAnalysisFails : CycleCalls :=
  ⟨.failed, .ok "s", .ok "v", .ok "r", .ok "d", .ok "f"⟩

/-- A parser that accepts nothing (any decision text is malformed). -/
def parseNone : String → Option Decision := fun _ => none

/-! ## Helper lemmas -/

/-- Accessing a negative pandas index past the start of the series fails. -/
lemma pilocOpt_out_of_range (xs : List ℚ) (n : Nat) (h : xs.length < n) :
    pilocOpt xs (-(n : Int)) = none := by
  simp only [pilocOpt]
  rw [if_pos (by omega : (-(n : Int)) < 0), if_neg (by omega : ¬ (0 : Int) ≤ (xs.length : Int) + -(n : Int))]

/-- Profits that are exactly zero contribute nothing to the loss sum, so
summing absolute values over the nonpositive profits equals summing them
over the strictly negative ones. -/
lemma sum_abs_nonpos_eq_neg (l : List ℚ) :
    ((l.filter (fun pf => !decide (0 < pf))).map (fun pf => |pf|)).sum =
      ((l.filter (fun pf => decide (pf < 0))).map (fun pf => |pf|)).sum := by
  induction l with
  | nil => rfl
  | cons x xs ih =>
    by_cases hx : 0 < x
    · have hx2 : ¬ x < 0 := by linarith
      simp [List.filter, hx, hx2, ih]
    · by_cases hx0 : x < 0
      · simp [List.filter, hx, hx0, ih]
      · have hxe : x = 0 := le_antisymm (not_lt.mp hx) (not_lt.mp hx0)
        simp [List.filter, hx, hx0, ih, hxe]

/-- The loss sum is a sum of absolute values, hence nonnegative. -/
lemma sum_abs_nonneg (l : List ℚ) : 0 ≤ (l.map (fun pf => |pf|)).sum := by
  induction l with
  | nil => simp
  | cons x xs ih =>
    simp only [List.map_cons, List.sum_cons]
    have := abs_nonneg x
    linarith

/-- A sum of strictly positive entries is nonnegative. -/
lemma sum_pos_filter_nonneg (l : List ℚ) :
    0 ≤ (l.filter (fun pf => decide (0 < pf))).sum := by
  induction l with
  | nil => simp
  | cons x xs ih =>
    by_cases hx : 0 < x
    · have hd : decide (0 < x) = true := decide_eq_true hx
      simp only [List.filter_cons, hd, if_true, List.sum_cons]
      linarith
    · have hd : decide (0 < x) = false := decide_eq_false hx
      simpa [List.filter_cons, hd] using ih

/-! ## Claim theorems -/

/-- C1 (code_bug evidence): on a 50-bar series — long enough for the full
classifier — classify_market raises NameError (the unbound market_data name
on line 208 of _identify_critical_levels) instead of returning a
classification, and the last-classification cache is left untouched. -/
theorem classify_market_name_error :
    classify_market (some md50) none = (.error PyErr.nameError, none) := by rfl

/-- C7: for every series shorter than the 50-bar long-trend lookback,
classify_market returns the explicit unknown classification (trend,
volatility and momentum all "unknown") without raising, and leaves the
cache unchanged. -/
theorem classify_market_short_unknown (d : MarketData) (cache : Option Classification)
    (h : d.closes.length < 50) :
    classify_market (some d) cache = (.ok unknownClassification, cache) ∧
    unknownClassification.trend = "unknown" ∧
    unknownClassification.volatility = "unknown" ∧
    unknownClassification.momentum = "unknown" := by
  refine ⟨?_, rfl, rfl, rfl⟩
  simp [classify_market, h]

/-- C7 witness: a 3-bar series yields the unknown classification. -/
theorem classify_market_short_unknown_witness :
    classify_market (some mdShort) none = (.ok unknownClassification, none) ∧
    unknownClassification.trend = "unknown" ∧
    unknownClassification.volatility = "unknown" ∧
    unknownClassification.momentum = "unknown" :=
  classify_market_short_unknown mdShort none (by decide)

/-- C10: for a missing position or a flat one (size = 0), get_position_risk
returns the literal report with risk_level "none" — a value outside the
RiskLevel enum {safe, low, medium, high, extreme} — and zero pnl percentage
and liquidation distance, never reaching the threshold rules. -/
theorem flat_position_risk_none :
    get_position_risk none = ⟨"none", 0, 0⟩ ∧
    (∀ p : PositionInfo, p.size = 0 → get_position_risk (some p) = ⟨"none", 0, 0⟩) ∧
    ("none" ≠ "safe" ∧ "none" ≠ "low" ∧ "none" ≠ "medium" ∧
      "none" ≠ "high" ∧ "none" ≠ "extreme") := by
  refine ⟨rfl, ?_, by decide⟩
  intro p hp
  simp [get_position_risk, hp]

/-- C10 witness: a concrete flat position gets the 'none' report. -/
theorem flat_position_risk_none_witness :
    get_position_risk (some posFlat) = ⟨"none", 0, 0⟩ :=
  flat_position_risk_none.2.1 posFlat rfl

/-- C5: when the risk assessment text recommends neither rejection
(不建议执行) nor adjustment (调整后执行), debate_strategy passes the
validated strategy through unchanged and marks the debate as not having
occurred. -/
theorem debate_passthrough (s r : String) (dc : CallResult)
    (h : needsDebate r = false) :
    debate_strategy s r dc = .ok ⟨s, s, r, false⟩ := by
  simp [debate_strategy, h]

/-- C5 witness: an approving risk text passes through even when the debate
call would have failed (it is never made). -/
theorem debate_passthrough_witness :
    debate_strategy "策略A" "同意执行" .failed =
      .ok ⟨"策略A", "策略A", "同意执行", false⟩ :=
  debate_passthrough _ _ _ (by rfl)

/-- C4 (code_bug evidence): check_emergency builds the market context
before evaluating any trigger, and on every frame shorter than 1440 bars —
including the 100-bar frames the monitor's own fetch produces — the
context raises IndexError and the catch-all returns False.  At a 100-bar
frame with a position at -20% pnl (below the -15 threshold, so the
position trigger itself holds) and risk score 0, the monitor therefore
reports no emergency, against the claim's OR semantics and the spec's
example. -/
theorem emergency_monitor_dead_on_fetched_frames :
    check_position_risk (some posLoss20) = true ∧
    prepare_market_context md100 = none ∧
    check_emergency false (some md100) (some posLoss20) 0 = false := by
  have h1440 : pilocOpt md100.closes (-1440) = none :=
    pilocOpt_out_of_range md100.closes 1440 (by simp [md100])
  have h24 : price_change_24h md100.closes = none := by
    cases hc : pilocOpt md100.closes (-1) <;> simp [price_change_24h, hc, h1440]
  have hctx : prepare_market_context md100 = none := by
    cases hc : pilocOpt md100.closes (-1) <;>
      cases hp1 : price_change_1h md100.closes <;>
        simp [prepare_market_context, hc, hp1, h24]
  refine ⟨?_, hctx, ?_⟩
  · norm_num [check_position_risk, posLoss20]
  · simp [check_emergency, hctx]

/-- C6: for every non-flat position (with a positive liquidation price and
positive entry notional, as in live data), get_position_risk classifies by
the first matching rule, in order: liquidation distance ≤ 5 → extreme,
≤ 10 → high, pnl% < -10 → medium, pnl% < -5 → low, otherwise safe. -/
theorem position_risk_rule_order (p : PositionInfo) (hs : p.size ≠ 0)
    (hl : 0 < p.liquidation_price) (he : 0 < |p.size * p.entry_price|) :
    (get_position_risk (some p)).risk_level =
      calculate_risk_level (p.unrealized_pnl / |p.size * p.entry_price| * 100)
        (|(p.mark_price - p.liquidation_price) / p.mark_price * 100|) ∧
    (∀ pnl dist : ℚ,
      (dist ≤ 5 → calculate_risk_level pnl dist = "extreme") ∧
      (¬ dist ≤ 5 → dist ≤ 10 → calculate_risk_level pnl dist = "high") ∧
      (¬ dist ≤ 10 → pnl < -10 → calculate_risk_level pnl dist = "medium") ∧
      (¬ dist ≤ 10 → ¬ pnl < -10 → pnl < -5 → calculate_risk_level pnl dist = "low") ∧
      (¬ dist ≤ 10 → ¬ pnl < -10 → ¬ pnl < -5 → calculate_risk_level pnl dist = "safe")) := by
  constructor
  · simp [get_position_risk, hs, he, hl]
  · intro pnl dist
    refine ⟨?_, ?_, ?_, ?_, ?_⟩
    · intro h5
      simp only [calculate_risk_level, if_pos h5]
    · intro h5 h10
      simp only [calculate_risk_level, if_neg h5, if_pos h10]
    · intro h10 hm
      have h5 : ¬ dist ≤ 5 := fun h => h10 (by linarith)
      simp only [calculate_risk_level, if_neg h5, if_neg h10, if_pos hm]
    · intro h10 hm hlow
      have h5 : ¬ dist ≤ 5 := fun h => h10 (by linarith)
      simp only [calculate_risk_level, if_neg h5, if_neg h10, if_neg hm, if_pos hlow]
    · intro h10 hm hlow
      have h5 : ¬ dist ≤ 5 := fun h => h10 (by linarith)
      simp only [calculate_risk_level, if_neg h5, if_neg h10, if_neg hm, if_neg hlow]

/-- C6 witness: the spec's example — long 1 @ 100, mark 90, liquidation 85,
liquidation distance 50/9 ≈ 5.6% — is classified high. -/
theorem position_risk_rule_order_witness :
    (get_position_risk (some posExample)).risk_level = "high" := by
  have h := position_risk_rule_order posExample (by norm_num [posExample])
    (by norm_num [posExample]) (by norm_num [posExample])
  have habs : |(50 : ℚ)/9| = 50/9 := abs_of_nonneg (by norm_num)
  rw [h.1]
  exact (h.2 _ _).2.1 (by norm_num [posExample, habs]) (by norm_num [posExample, habs])

/-- C9: for a series shorter than the 60-bar lookback the 1h price-change
figure fails (IndexError from iloc[-60]) and with it the whole market
context, and for a series shorter than the 1440-bar lookback the 24h
price-change figure fails and with it the whole market context — the
context is never built from a silently shortened window. -/
theorem market_context_short_series_fails (md : MarketData) :
    (md.closes.length < 60 →
      price_change_1h md.closes = none ∧ prepare_market_context md = none) ∧
    (md.closes.length < 1440 →
      price_change_24h md.closes = none ∧ prepare_market_context md = none) := by
  constructor
  · intro h
    have h60 : pilocOpt md.closes (-60) = none := pilocOpt_out_of_range md.closes 60 h
    have h1 : price_change_1h md.closes = none := by
      cases hc : pilocOpt md.closes (-1) <;> simp [price_change_1h, hc, h60]
    refine ⟨h1, ?_⟩
    cases hc : pilocOpt md.closes (-1) <;>
      simp [prepare_market_context, hc, h1]
  · intro h
    have h1440 : pilocOpt md.closes (-1440) = none := pilocOpt_out_of_range md.closes 1440 h
    have h24 : price_change_24h md.closes = none := by
      cases hc : pilocOpt md.closes (-1) <;> simp [price_change_24h, hc, h1440]
    refine ⟨h24, ?_⟩
    cases hc : pilocOpt md.closes (-1) <;>
      cases hp1 : price_change_1h md.closes <;>
        simp [prepare_market_context, hc, hp1, h24]

/-- C9 witness: a 10-bar series fails both lookbacks and yields no context. -/
theorem market_context_short_series_fails_witness :
    (price_change_1h md10.closes = none ∧ prepare_market_context md10 = none) ∧
    (price_change_24h md10.closes = none ∧ prepare_market_context md10 = none) :=
  ⟨(market_context_short_series_fails md10).1 (by decide),
   (market_context_short_series_fails md10).2 (by decide)⟩

/-- C3 counterexample: four hold records with no outcomes give
total_trades = 4, not 0; and appending an outcome-less record to a ledger
with one winning trade moves win_rate from 1 to 1/2, so outcome-less trades
do count toward the denominator, contrary to the claim. -/
theorem win_rate_outcomeless_counterexample :
    (calculate_performance_metrics fourHolds 0).total_trades = 4 ∧
    (calculate_performance_metrics oneWin 0).win_rate = 1 ∧
    (calculate_performance_metrics oneWinPlusHold 0).win_rate = 1/2 := by
  norm_num [calculate_performance_metrics, get_recent_trades, outcomeProfits,
    fourHolds, oneWin, oneWinPlusHold, List.filter, List.filterMap, List.replicate]

/-- C3 (amended): for every nonempty window, total_trades counts every
record in the window — with or without an outcome — and win_rate is the
number of trades with profit > 0 divided by that same count; the four
outcome-less hold records therefore yield total_trades = 4 and win_rate = 0
(still a number, not NaN). -/
theorem win_rate_denominator_all_recent (trades : List TradeRec) (cutoff : Int)
    (h : get_recent_trades trades cutoff ≠ []) :
    (calculate_performance_metrics trades cutoff).total_trades =
      (get_recent_trades trades cutoff).length ∧
    (calculate_performance_metrics trades cutoff).win_rate =
      (((outcomeProfits (get_recent_trades trades cutoff)).filter
          (fun pf => decide (0 < pf))).length : ℚ) /
        ((get_recent_trades trades cutoff).length : ℚ) ∧
    (calculate_performance_metrics fourHolds 0).total_trades = 4 ∧
    (calculate_performance_metrics fourHolds 0).win_rate = 0 := by
  have hne : (get_recent_trades trades cutoff).isEmpty = false := by
    cases hgl : get_recent_trades trades cutoff with
    | nil => exact absurd hgl h
    | cons a l => rfl
  have hlen : 0 < (get_recent_trades trades cutoff).length := List.length_pos.mpr h
  refine ⟨?_, ?_, ?_, ?_⟩
  · simp [calculate_performance_metrics, hne]
  · simp [calculate_performance_metrics, hne, hlen]
  · norm_num [calculate_performance_metrics, get_recent_trades, outcomeProfits,
      fourHolds, List.filter, List.filterMap, List.replicate]
  · norm_num [calculate_performance_metrics, get_recent_trades, outcomeProfits,
      fourHolds, List.filter, List.filterMap, List.replicate]

/-- C3 witness: the amended statement evaluated on the one-winner ledger
with an appended outcome-less hold. -/
theorem win_rate_denominator_all_recent_witness :
    (calculate_performance_metrics oneWinPlusHold 0).total_trades =
      (get_recent_trades oneWinPlusHold 0).length ∧
    (calculate_performance_metrics oneWinPlusHold 0).win_rate =
      (((outcomeProfits (get_recent_trades oneWinPlusHold 0)).filter
          (fun pf => decide (0 < pf))).length : ℚ) /
        ((get_recent_trades oneWinPlusHold 0).length : ℚ) ∧
    (calculate_performance_metrics fourHolds 0).total_trades = 4 ∧
    (calculate_performance_metrics fourHolds 0).win_rate = 0 :=
  win_rate_denominator_all_recent oneWinPlusHold 0 (by decide)

/-- C8: for every ledger and window, profit_factor equals the sum of the
positive profits divided by the sum of absolute values of the negative
profits (profits of exactly zero contribute to neither side), it is always
nonnegative, and it equals 0 — rather than raising a division error —
whenever the window contains no losing trade. -/
theorem profit_factor_spec (trades : List TradeRec) (cutoff : Int) :
    (calculate_performance_metrics trades cutoff).profit_factor =
      ((outcomeProfits (get_recent_trades trades cutoff)).filter (fun pf => decide (0 < pf))).sum /
        (((outcomeProfits (get_recent_trades trades cutoff)).filter
            (fun pf => decide (pf < 0))).map (fun pf => |pf|)).sum ∧
    0 ≤ (calculate_performance_metrics trades cutoff).profit_factor ∧
    ((outcomeProfits (get_recent_trades trades cutoff)).filter (fun pf => decide (pf < 0)) = [] →
      (calculate_performance_metrics trades cutoff).profit_factor = 0) := by
  by_cases hE : (get_recent_trades trades cutoff).isEmpty
  · have hnil : get_recent_trades trades cutoff = [] := by
      cases hgl : get_recent_trades trades cutoff with
      | nil => rfl
      | cons a l => rw [hgl] at hE; simp [List.isEmpty] at hE
    simp [calculate_performance_metrics, hE, hnil, outcomeProfits]
  · have hE' : (get_recent_trades trades cutoff).isEmpty = false := by
      cases hb : (get_recent_trades trades cutoff).isEmpty
      · rfl
      · exact absurd hb hE
    have hTL := sum_abs_nonpos_eq_neg (outcomeProfits (get_recent_trades trades cutoff))
    have hNLnonneg := sum_abs_nonneg
      ((outcomeProfits (get_recent_trades trades cutoff)).filter (fun pf => decide (pf < 0)))
    have hTP := sum_pos_filter_nonneg (outcomeProfits (get_recent_trades trades cutoff))
    simp only [calculate_performance_metrics, hE', Bool.false_eq_true, if_false, hTL]
    by_cases hpos :
        0 < (((outcomeProfits (get_recent_trades trades cutoff)).filter
          (fun pf => decide (pf < 0))).map (fun pf => |pf|)).sum
    · refine ⟨by rw [if_pos hpos], ?_, ?_⟩
      · rw [if_pos hpos]
        exact div_nonneg hTP (le_of_lt hpos)
      · intro hnilf
        rw [hnilf] at hpos
        simp at hpos
    · have h0 : (((outcomeProfits (get_recent_trades trades cutoff)).filter
          (fun pf => decide (pf < 0))).map (fun pf => |pf|)).sum = 0 :=
        le_antisymm (not_lt.mp hpos) hNLnonneg
      refine ⟨?_, ?_, ?_⟩
      · rw [if_neg hpos, h0, div_zero]
      · rw [if_neg hpos]
      · intro _; rw [if_neg hpos]

/-- C8 witness: the no-losing-trades implication evaluated on the
one-winner ledger gives profit_factor 0. -/
theorem profit_factor_spec_witness :
    (calculate_performance_metrics oneWin 0).profit_factor = 0 :=
  (profit_factor_spec oneWin 0).2.2 (by decide)

/-- C2 counterexample: in a cycle whose analysis-stage reasoning call
raises, the cycle terminates with the error merely logged — no decision at
all is produced, so it does not terminate with the safe-default decision as
the claim states. -/
theorem pipeline_stage_failure_counterexample :
    stage_failure_occurs cAnalysisFails parseNone = true ∧
    strategy_update_job true cAnalysisFails parseNone ≠
      CycleOutcome.executed safe_default_decision :=
  ⟨rfl, by simp [strategy_update_job, cAnalysisFails, analyze_market, callLLM]⟩

/-- C2 (amended): a cycle that encounters any stage failure either
terminates with the error logged and no decision produced (a raising
reasoning call at any stage, including the final one), or — exactly when
the final decision text fails to parse — terminates with the safe default
action=hold (观望), quantity "0", confidence "0"; in every such cycle
nothing is passed to the exchange execution collaborator. -/
theorem pipeline_stage_failure_safe (c : CycleCalls) (parse : String → Option Decision)
    (h : stage_failure_occurs c parse = true) :
    (strategy_update_job true c parse = .errorLogged ∨
      strategy_update_job true c parse = .executed safe_default_decision) ∧
    cycle_order (strategy_update_job true c parse) = none := by
  obtain ⟨a, t, v, r, db, f⟩ := c
  cases a with
  | failed => exact ⟨Or.inl rfl, rfl⟩
  | ok aT =>
    cases t with
    | failed => exact ⟨Or.inl rfl, rfl⟩
    | ok tT =>
      cases v with
      | failed => exact ⟨Or.inl rfl, rfl⟩
      | ok vT =>
        cases r with
        | failed => exact ⟨Or.inl rfl, rfl⟩
        | ok rT =>
          by_cases hd : needsDebate rT = true
          · cases db with
            | failed =>
              refine ⟨Or.inl ?_, ?_⟩ <;>
                simp [strategy_update_job, analyze_market, suggest_strategy,
                  evaluate_risk, make_final_decision, debate_strategy, callLLM, hd,
                  cycle_order]
            | ok dT =>
              have hf : final_fails f parse = true := by
                simpa [stage_failure_occurs, hd] using h
              cases f with
              | failed =>
                refine ⟨Or.inl ?_, ?_⟩ <;>
                  simp [strategy_update_job, analyze_market, suggest_strategy,
                    evaluate_risk, make_final_decision, debate_strategy, callLLM, hd,
                    cycle_order]
              | ok fT =>
                have hp : parse fT = none := by
                  simpa [final_fails, Option.isNone_iff_eq_none] using hf
                refine ⟨Or.inr ?_, ?_⟩ <;>
                  simp [strategy_update_job, analyze_market, suggest_strategy,
                    evaluate_risk, make_final_decision, debate_strategy, callLLM, hd, hp,
                    cycle_order, execute_decision, safe_default_decision]
          · have hd' : needsDebate rT = false := by
              cases hb : needsDebate rT
              · rfl
              · exact absurd hb hd
            have hf : final_fails f parse = true := by
              simpa [stage_failure_occurs, hd'] using h
            cases f with
            | failed =>
              refine ⟨Or.inl ?_, ?_⟩ <;>
                simp [strategy_update_job, analyze_market, suggest_strategy,
                  evaluate_risk, make_final_decision, debate_strategy, callLLM, hd',
                  cycle_order]
            | ok fT =>
              have hp : parse fT = none := by
                simpa [final_fails, Option.isNone_iff_eq_none] using hf
              refine ⟨Or.inr ?_, ?_⟩ <;>
                simp [strategy_update_job, analyze_market, suggest_strategy,
                  evaluate_risk, make_final_decision, debate_strategy, callLLM, hd', hp,
                  cycle_order, execute_decision, safe_default_decision]

/-- C2 witness: the amended statement evaluated on the cycle whose analysis
call raises. -/
theorem pipeline_stage_failure_safe_witness :
    (strategy_update_job true cAnalysisFails parseNone = .errorLogged ∨
      strategy_update_job true cAnalysisFails parseNone = .executed safe_default_decision) ∧
    cycle_order (strategy_update_job true cAnalysisFails parseNone) = none :=
  pipeline_stage_failure_safe cAnalysisFails parseNone rfl
